import Mathlib

/-!
Shallow embedding of `src/homework.py`, a fitness-tracker computation module:
a base class `Training` with three subclasses (`Running`, `SportsWalking`,
`Swimming`) overriding distance/speed/calorie formulas, and a factory
`read_package` dispatching on a modality tag.

Modelling conventions:
* Python numbers are embedded as `ℚ` (the program only performs exact
  decimal-literal arithmetic; rationals capture every formula exactly).
* Python exceptions are embedded as the inductive `PyErr`; fallible
  computations return `Except PyErr _`.  Python raises `ZeroDivisionError`
  on division by zero (for ints and floats alike), so every division whose
  denominator is a runtime field goes through the guarded `pyDiv`.
  Divisions by the class constants `M_IN_KM = 1000` and `CM_IN_M = 100`
  can never raise and are embedded as plain field division.
* Dynamic dispatch over the class hierarchy is embedded as a match on an
  inductive `Training` with one constructor per class (including the base
  class, which Python allows to be instantiated directly); each overridable
  method is one Lean function matching on the variant, the default branch
  being the base-class body.
* `SportsWalking.__init__` stores `height / CM_IN_M`; the smart constructor
  `SportsWalking.init` performs that division at construction time, so the
  stored `height` field is already in metres, exactly as in the source.
* Methods never assign to `self` outside `__init__`; to make that explicit
  for the idempotence claim, `show_training_info_st` is the state-passing
  embedding of `show_training_info`, returning the report together with the
  post-state of the receiver.
-/

namespace homework

/-- Python exceptions raised by the program: the `ValueError` raised by
`read_package` for an unknown tag (with its message), the generic
`TypeError` the Python runtime raises when a constructor is called with the
wrong number of positional arguments, `ZeroDivisionError` from division by
zero, and the `NotImplementedError` raised by the base class's
`get_spent_calories`. -/
inductive PyErr where
  | valueError (msg : String)
  | typeError
  | zeroDivisionError
  | notImplementedError (msg : String)
  deriving DecidableEq, Repr

/-- Python division: raises `ZeroDivisionError` when the denominator is
zero, otherwise returns the exact quotient. -/
def pyDiv (a b : ℚ) : Except PyErr ℚ :=
  if b = 0 then .error .zeroDivisionError else .ok (a / b)

/-- The `InfoMessage` dataclass: the read-only workout report
(`training_type`, `duration`, `distance`, `speed`, `calories`). -/
structure InfoMessage where
  training_type : String
  duration : ℚ
  distance : ℚ
  speed : ℚ
  calories : ℚ
  deriving DecidableEq, Repr

/-- The class hierarchy: one constructor per class.  `base` is a direct
instance of `Training`; `sportsWalking`'s `height` field holds the value
stored by its `__init__`, i.e. the height already divided by `CM_IN_M`. -/
inductive Training where
  | base (action duration weight : ℚ)
  | running (action duration weight : ℚ)
  | sportsWalking (action duration weight height : ℚ)
  | swimming (action duration weight length_pool count_pool : ℚ)
  deriving DecidableEq, Repr

namespace Training

/-- `Training.M_IN_KM`. -/
def M_IN_KM : ℚ := 1000

/-- `Training.MIN_IN_H`. -/
def MIN_IN_H : ℚ := 60

/-- Class attribute `LEN_STEP`: `0.65` on the base class, overridden to
`1.38` by `Swimming`. -/
def LEN_STEP : Training → ℚ
  | .swimming _ _ _ _ _ => 1.38
  | _ => 0.65

/-- Field `self.action`. -/
def action : Training → ℚ
  | .base a _ _ => a
  | .running a _ _ => a
  | .sportsWalking a _ _ _ => a
  | .swimming a _ _ _ _ => a

/-- Field `self.duration`. -/
def duration : Training → ℚ
  | .base _ d _ => d
  | .running _ d _ => d
  | .sportsWalking _ d _ _ => d
  | .swimming _ d _ _ _ => d

/-- Field `self.weight`. -/
def weight : Training → ℚ
  | .base _ _ w => w
  | .running _ _ w => w
  | .sportsWalking _ _ w _ => w
  | .swimming _ _ w _ _ => w

/-- `self.__class__.__name__`. -/
def className : Training → String
  | .base _ _ _ => "Training"
  | .running _ _ _ => "Running"
  | .sportsWalking _ _ _ _ => "SportsWalking"
  | .swimming _ _ _ _ _ => "Swimming"

/-- `Training.get_distance`: `self.action * self.LEN_STEP / self.M_IN_KM`
(no override; `LEN_STEP` is looked up dynamically).  The denominator is the
constant `1000`, so this division cannot raise. -/
def get_distance (t : Training) : ℚ :=
  t.action * t.LEN_STEP / M_IN_KM

/-- `get_mean_speed`: the base class returns
`(self.action * self.LEN_STEP / self.M_IN_KM) / self.duration`;
`Swimming` overrides it with
`self.length_pool * self.count_pool / self.M_IN_KM / self.duration`. -/
def get_mean_speed : Training → Except PyErr ℚ
  | .swimming _ d _ lp cp => pyDiv (lp * cp / M_IN_KM) d
  | t => pyDiv (t.action * t.LEN_STEP / M_IN_KM) t.duration

end Training

namespace Running

/-- `Running.CALORIES_MEAN_SPEED_MULTIPLIER`. -/
def CALORIES_MEAN_SPEED_MULTIPLIER : ℚ := 18

/-- `Running.CALORIES_MEAN_SPEED_SHIFT`. -/
def CALORIES_MEAN_SPEED_SHIFT : ℚ := 1.79

end Running

namespace SportsWalking

/-- `SportsWalking.CALORIES_WEIGHT_MULTIPLIER`. -/
def CALORIES_WEIGHT_MULTIPLIER : ℚ := 0.035

/-- `SportsWalking.CALORIES_SPEED_HEIGHT_MULTIPLIER`. -/
def CALORIES_SPEED_HEIGHT_MULTIPLIER : ℚ := 0.029

/-- `SportsWalking.KMH_IN_MSEC`. -/
def KMH_IN_MSEC : ℚ := 0.278

/-- `SportsWalking.CM_IN_M`. -/
def CM_IN_M : ℚ := 100

/-- `SportsWalking.__init__`: stores `self.height = height / self.CM_IN_M`
(the division happens once, at construction), then delegates the remaining
fields to `Training.__init__`. -/
def init (action duration weight height : ℚ) : Training :=
  .sportsWalking action duration weight (height / CM_IN_M)

end SportsWalking

namespace Swimming

/-- `Swimming.CALORIES_MEAN_SWIM_MULTIPLIER`. -/
def CALORIES_MEAN_SWIM_MULTIPLIER : ℚ := 1.1

/-- `Swimming.CALORIES_MEAN_SWIM_SHIFT`. -/
def CALORIES_MEAN_SWIM_SHIFT : ℚ := 2

end Swimming

namespace Training

/-- `get_spent_calories`: the base class raises `NotImplementedError`;
each subclass overrides it with its own formula (Python expressions are
left-associated exactly as written in the source). -/
def get_spent_calories : Training → Except PyErr ℚ
  | .base _ _ _ =>
      .error (.notImplementedError "Метод будет переопределен далее")
  | .running a d w => do
      -- (MULT * action * LEN_STEP / M_IN_KM / duration + SHIFT)
      --   * weight / M_IN_KM * duration * MIN_IN_H
      let s ← pyDiv (Running.CALORIES_MEAN_SPEED_MULTIPLIER * a
        * (0.65 : ℚ) / M_IN_KM) d
      pure ((s + Running.CALORIES_MEAN_SPEED_SHIFT) * w / M_IN_KM * d
        * MIN_IN_H)
  | .sportsWalking a d w h => do
      -- (WEIGHT_MULT * weight
      --   + ((get_mean_speed() * KMH_IN_MSEC) ** 2 / height
      --      * SPEED_HEIGHT_MULT * weight)) * duration * MIN_IN_H
      let ms ← get_mean_speed (.sportsWalking a d w h)
      let q ← pyDiv ((ms * SportsWalking.KMH_IN_MSEC) ^ 2) h
      pure ((SportsWalking.CALORIES_WEIGHT_MULTIPLIER * w
        + q * SportsWalking.CALORIES_SPEED_HEIGHT_MULTIPLIER * w) * d
        * MIN_IN_H)
  | .swimming a d w lp cp => do
      -- (get_mean_speed() + SWIM_MULT) * SWIM_SHIFT * weight * duration
      let ms ← get_mean_speed (.swimming a d w lp cp)
      pure ((ms + Swimming.CALORIES_MEAN_SWIM_MULTIPLIER)
        * Swimming.CALORIES_MEAN_SWIM_SHIFT * w * d)

/-- `Training.show_training_info`: builds the `InfoMessage` from the class
name, duration, distance, mean speed and spent calories.  Python evaluates
the arguments left to right, so a speed error surfaces before a calorie
error. -/
def show_training_info (t : Training) : Except PyErr InfoMessage := do
  let sp ← t.get_mean_speed
  let cal ← t.get_spent_calories
  pure ⟨t.className, t.duration, t.get_distance, sp, cal⟩

/-- State-passing embedding of `show_training_info`: the method reads
fields but never assigns to `self`, so the post-state it returns is the
receiver unchanged.  This makes the absence of mutation explicit for the
idempotence claim. -/
def show_training_info_st (t : Training) :
    Except PyErr (InfoMessage × Training) :=
  match t.show_training_info with
  | .error e => .error e
  | .ok m => .ok (m, t)

end Training

/-- `read_package`: looks the tag up in the dispatch table
`{SWM ↦ Swimming, RUN ↦ Running, WLK ↦ SportsWalking}`, raising
`ValueError('Отсутствует указанный тип тренировки.')` when the tag is
absent, then calls the selected constructor with the payload unpacked
positionally; a payload whose length differs from the constructor's arity
makes the Python runtime raise a generic `TypeError`. -/
def read_package (workout_type : String) (data : List ℚ) :
    Except PyErr Training :=
  if workout_type = "SWM" then
    match data with
    | [a, d, w, lp, cp] => .ok (.swimming a d w lp cp)
    | _ => .error .typeError
  else if workout_type = "RUN" then
    match data with
    | [a, d, w] => .ok (.running a d w)
    | _ => .error .typeError
  else if workout_type = "WLK" then
    match data with
    | [a, d, w, h] => .ok (SportsWalking.init a d w h)
    | _ => .error .typeError
  else
    .error (.valueError "Отсутствует указанный тип тренировки.")

/-! Spec-side formulas, written from the spec's words, to be compared
against the code-derived definitions above. -/

/-- Spec formula for Running calories:
`(18 * action_count * 0.65 / 1000 / duration_hours + 1.79) * weight_kg
/ 1000 * duration_hours * 60`. -/
def specRunningCalories (a d w : ℚ) : ℚ :=
  (18 * a * (0.65 : ℚ) / 1000 / d + 1.79) * w / 1000 * d * 60

/-- Spec default average speed (step-based):
`action_count * step_length_km / 1000 / duration_hours` with the default
step length `0.65`. -/
def specDefaultSpeed (a d : ℚ) : ℚ :=
  a * (0.65 : ℚ) / 1000 / d

/-- Spec formula for WalkingWithLoad calories, with
`height_m = height_cm / 100` and `avg_speed_kmh` the default step-based
speed: `(0.035 * weight_kg + (avg_speed_kmh * 0.278)^2 / height_m * 0.029
* weight_kg) * duration_hours * 60`. -/
def specWalkingCalories (a d w hcm : ℚ) : ℚ :=
  ((0.035 : ℚ) * w
    + (specDefaultSpeed a d * (0.278 : ℚ)) ^ 2 / (hcm / 100)
      * (0.029 : ℚ) * w) * d * 60

/-- Spec formula for Swimming average speed:
`pool_length_m * pool_laps / 1000 / duration_hours`. -/
def specSwimmingSpeed (d lp cp : ℚ) : ℚ :=
  lp * cp / 1000 / d

/-- Spec formula for Swimming calories:
`(avg_speed_kmh + 1.1) * 2 * weight_kg * duration_hours`. -/
def specSwimmingCalories (d w lp cp : ℚ) : ℚ :=
  (specSwimmingSpeed d lp cp + (1.1 : ℚ)) * 2 * w * d

end homework

namespace homework

/-! Helper lemmas shared by several claim theorems: closed forms of the
code's formulas, obtained by discharging the `ZeroDivisionError` guards. -/

/-- Monad law for `Except`: binding a success applies the continuation. -/
theorem ok_bind {α β : Type} (a : α) (f : α → Except PyErr β) :
    (Except.ok a : Except PyErr α) >>= f = f a := rfl

/-- Monad law for `Except`: binding an error propagates the error. -/
theorem error_bind {α β : Type} (e : PyErr) (f : α → Except PyErr β) :
    (Except.error e : Except PyErr α) >>= f = .error e := rfl

/-- Closed form of `Running.get_spent_calories` when the duration is
nonzero. -/
theorem running_calories_eq (a d w : ℚ) (hd : d ≠ 0) :
    Training.get_spent_calories (.running a d w)
      = .ok ((18 * a * (0.65 : ℚ) / 1000 / d + 1.79) * w / 1000 * d * 60) := by
  simp [Training.get_spent_calories, pyDiv, hd, ok_bind, Training.M_IN_KM,
    Training.MIN_IN_H, Running.CALORIES_MEAN_SPEED_MULTIPLIER,
    Running.CALORIES_MEAN_SPEED_SHIFT]

/-- Closed form of `SportsWalking.get_spent_calories` when the duration and
the stored height (in metres) are nonzero. -/
theorem walking_calories_eq (a d w h : ℚ) (hd : d ≠ 0) (hh : h ≠ 0) :
    Training.get_spent_calories (.sportsWalking a d w h)
      = .ok (((0.035 : ℚ) * w
        + (a * (0.65 : ℚ) / 1000 / d * (0.278 : ℚ)) ^ 2 / h * (0.029 : ℚ) * w)
          * d * 60) := by
  simp [Training.get_spent_calories, Training.get_mean_speed, pyDiv, hd, hh,
    ok_bind, Training.M_IN_KM, Training.MIN_IN_H, Training.LEN_STEP,
    Training.action, Training.duration, SportsWalking.KMH_IN_MSEC,
    SportsWalking.CALORIES_WEIGHT_MULTIPLIER,
    SportsWalking.CALORIES_SPEED_HEIGHT_MULTIPLIER]

/-- Closed form of `Swimming.get_mean_speed` when the duration is
nonzero. -/
theorem swimming_speed_eq (a d w lp cp : ℚ) (hd : d ≠ 0) :
    Training.get_mean_speed (.swimming a d w lp cp)
      = .ok (lp * cp / 1000 / d) := by
  simp [Training.get_mean_speed, pyDiv, hd, Training.M_IN_KM]

/-- Closed form of `Swimming.get_spent_calories` when the duration is
nonzero. -/
theorem swimming_calories_eq (a d w lp cp : ℚ) (hd : d ≠ 0) :
    Training.get_spent_calories (.swimming a d w lp cp)
      = .ok ((lp * cp / 1000 / d + (1.1 : ℚ)) * 2 * w * d) := by
  simp [Training.get_spent_calories, Training.get_mean_speed, pyDiv, hd, ok_bind,
    Training.M_IN_KM, Swimming.CALORIES_MEAN_SWIM_MULTIPLIER,
    Swimming.CALORIES_MEAN_SWIM_SHIFT]

/-- Claim C1: the code does NOT validate `duration_hours ≤ 0`.  At the
concrete Running workout with `duration = -1` the program returns a
finite report (negative speed, positive calories) instead of failing; at
`duration = 0` it fails, but with a generic `ZeroDivisionError` raised by
the first division, not a dedicated `InvalidDuration` error (no such error
exists anywhere in the code).  This contradicts the claim, which requires
failure with `InvalidDuration` for every zero or negative duration. -/
theorem duration_zero_and_negative_behavior :
    Training.show_training_info (.running 15000 (-1) 75)
      = .ok ⟨"Running", -1, 39 / 4, -(39 / 4), 156339 / 200⟩ ∧
    Training.show_training_info (.running 15000 0 75)
      = .error .zeroDivisionError := by
  constructor
  · norm_num [Training.show_training_info, Training.get_mean_speed,
      Training.get_spent_calories, Training.get_distance, Training.className,
      Training.action, Training.duration, Training.weight, Training.LEN_STEP,
      Training.M_IN_KM, Training.MIN_IN_H, Running.CALORIES_MEAN_SPEED_MULTIPLIER,
      Running.CALORIES_MEAN_SPEED_SHIFT, pyDiv, ok_bind, InfoMessage.mk.injEq]
  · norm_num [Training.show_training_info, Training.get_mean_speed,
      Training.duration, Training.action, Training.LEN_STEP, Training.M_IN_KM,
      pyDiv, error_bind]

/-- Claim C2: at the claim's own input `("RUN", [1, 1])` the factory does
fail, but with the generic `TypeError` the Python runtime raises for a
wrong number of positional constructor arguments — the code defines no
dedicated `MalformedPayload` error and performs no arity validation. -/
theorem run_short_payload_fails_generic :
    read_package "RUN" [1, 1] = .error .typeError := rfl

/-- Claim C3: for every tag outside the recognized set and every payload,
`read_package` fails with the dedicated
`ValueError('Отсутствует указанный тип тренировки.')` — the unknown-tag
check precedes construction, so no `Training` is built. -/
theorem unknown_tag_fails (tag : String) (h1 : tag ≠ "SWM") (h2 : tag ≠ "RUN")
    (h3 : tag ≠ "WLK") (data : List ℚ) :
    read_package tag data
      = .error (.valueError "Отсутствует указанный тип тренировки.") := by
  simp [read_package, h1, h2, h3]

/-- Witness for claim C3 at the spec's example input `("XYZ", [1,1,1])`. -/
theorem unknown_tag_fails_witness :
    read_package "XYZ" [1, 1, 1]
      = .error (.valueError "Отсутствует указанный тип тренировки.") :=
  unknown_tag_fails "XYZ" (by decide) (by decide) (by decide) [1, 1, 1]

/-- Claim C4: for positive duration, `Running.get_spent_calories` returns
exactly the spec formula
`(18 * action * 0.65 / 1000 / duration + 1.79) * weight / 1000 * duration
* 60`. -/
theorem running_calories_matches_spec (a d w : ℚ) (hd : 0 < d) :
    Training.get_spent_calories (.running a d w)
      = .ok (specRunningCalories a d w) :=
  running_calories_eq a d w (ne_of_gt hd)

/-- Witness for claim C4 at the reference sample `("RUN", [15000, 1, 75])`. -/
theorem running_calories_matches_spec_witness :
    Training.get_spent_calories (.running 15000 1 75)
      = .ok (specRunningCalories 15000 1 75) :=
  running_calories_matches_spec 15000 1 75 (by norm_num)

/-- Claim C5: `SportsWalking.__init__` stores `height_cm / 100` once at
construction, and for positive duration (and nonzero height, without which
the claim's own formula is undefined) `get_spent_calories` returns exactly
the spec formula with the default step-based average speed. -/
theorem walking_calories_matches_spec (a d w hcm : ℚ) (hd : 0 < d)
    (hh : hcm ≠ 0) :
    SportsWalking.init a d w hcm = .sportsWalking a d w (hcm / 100) ∧
    Training.get_spent_calories (SportsWalking.init a d w hcm)
      = .ok (specWalkingCalories a d w hcm) := by
  have hh' : hcm / (100 : ℚ) ≠ 0 := div_ne_zero hh (by norm_num)
  refine ⟨rfl, ?_⟩
  show Training.get_spent_calories (.sportsWalking a d w (hcm / 100)) = _
  rw [walking_calories_eq a d w (hcm / 100) (ne_of_gt hd) hh']
  simp [specWalkingCalories, specDefaultSpeed]

/-- Witness for claim C5 at the reference sample
`("WLK", [9000, 1, 75, 180])`. -/
theorem walking_calories_matches_spec_witness :
    SportsWalking.init 9000 1 75 180 = .sportsWalking 9000 1 75 (180 / 100) ∧
    Training.get_spent_calories (SportsWalking.init 9000 1 75 180)
      = .ok (specWalkingCalories 9000 1 75 180) :=
  walking_calories_matches_spec 9000 1 75 180 (by norm_num) (by norm_num)

/-- Claim C6: for positive duration, `Swimming.get_mean_speed` returns
exactly `pool_length * pool_laps / 1000 / duration`, and the result does
not depend on `action`: two swimming workouts differing only in `action`
have identical mean speed. -/
theorem swimming_speed_matches_spec (a a' d w lp cp : ℚ) (hd : 0 < d) :
    Training.get_mean_speed (.swimming a d w lp cp)
      = .ok (specSwimmingSpeed d lp cp) ∧
    Training.get_mean_speed (.swimming a d w lp cp)
      = Training.get_mean_speed (.swimming a' d w lp cp) :=
  ⟨swimming_speed_eq a d w lp cp (ne_of_gt hd), rfl⟩

/-- Witness for claim C6 at the reference sample
`("SWM", [720, 1, 80, 25, 40])`, paired with a second workout differing
only in `action`. -/
theorem swimming_speed_matches_spec_witness :
    Training.get_mean_speed (.swimming 720 1 80 25 40)
      = .ok (specSwimmingSpeed 1 25 40) ∧
    Training.get_mean_speed (.swimming 720 1 80 25 40)
      = Training.get_mean_speed (.swimming 999 1 80 25 40) :=
  swimming_speed_matches_spec 720 999 1 80 25 40 (by norm_num)

/-- Claim C7: for positive duration, `Swimming.get_spent_calories` returns
exactly `(avg_speed + 1.1) * 2 * weight * duration` with the pool-geometry
speed. -/
theorem swimming_calories_matches_spec (a d w lp cp : ℚ) (hd : 0 < d) :
    Training.get_spent_calories (.swimming a d w lp cp)
      = .ok (specSwimmingCalories d w lp cp) :=
  swimming_calories_eq a d w lp cp (ne_of_gt hd)

/-- Witness for claim C7 at the reference sample
`("SWM", [720, 1, 80, 25, 40])`: the mean speed is `1` km/h and the
calories are exactly `336`. -/
theorem swimming_calories_matches_spec_witness :
    Training.get_spent_calories (.swimming 720 1 80 25 40) = .ok 336 ∧
    specSwimmingSpeed 1 25 40 = 1 := by
  constructor
  · rw [swimming_calories_matches_spec 720 1 80 25 40 (by norm_num)]
    norm_num [specSwimmingCalories, specSwimmingSpeed]
  · norm_num [specSwimmingSpeed]

/-- Claim C8: `show_training_info` is deterministic and does not mutate the
workout: whenever the state-passing summary returns a report, the
post-state equals the receiver, and calling it again on the post-state
yields the bit-identical report and state. -/
theorem summarize_idempotent (t : Training) (r : InfoMessage) (t' : Training)
    (h : Training.show_training_info_st t = .ok (r, t')) :
    t' = t ∧ Training.show_training_info_st t' = .ok (r, t') := by
  unfold Training.show_training_info_st at h
  cases hst : t.show_training_info with
  | error e => rw [hst] at h; exact absurd h (by simp)
  | ok m =>
    rw [hst] at h
    obtain ⟨rfl, rfl⟩ : m = r ∧ t = t' := by simpa using h
    exact ⟨rfl, by unfold Training.show_training_info_st; rw [hst]⟩

/-- Witness for claim C8 at the reference sample
`("RUN", [15000, 1, 75])`. -/
theorem summarize_idempotent_witness :
    (Training.running 15000 1 75) = (Training.running 15000 1 75) ∧
    Training.show_training_info_st (.running 15000 1 75)
      = .ok (⟨"Running", 1, 39 / 4, 39 / 4, 159561 / 200⟩,
             .running 15000 1 75) :=
  summarize_idempotent (.running 15000 1 75)
    ⟨"Running", 1, 39 / 4, 39 / 4, 159561 / 200⟩ (.running 15000 1 75)
    (by norm_num [Training.show_training_info_st, Training.show_training_info,
      Training.get_mean_speed, Training.get_spent_calories,
      Training.get_distance, Training.className, Training.action,
      Training.duration, Training.weight, Training.LEN_STEP, Training.M_IN_KM,
      Training.MIN_IN_H, Running.CALORIES_MEAN_SPEED_MULTIPLIER,
      Running.CALORIES_MEAN_SPEED_SHIFT, pyDiv, ok_bind,
      InfoMessage.mk.injEq])

/-- Claim C9: `get_spent_calories` on a direct instance of the base class
raises `NotImplementedError` (the code's "unimplemented operation" error),
while each of the three subclasses overrides it and returns a number on
nondegenerate inputs. -/
theorem base_calories_unimplemented (a d w h lp cp : ℚ) :
    Training.get_spent_calories (.base a d w)
      = .error (.notImplementedError "Метод будет переопределен далее") ∧
    (0 < d →
      (∃ c, Training.get_spent_calories (.running a d w) = .ok c) ∧
      (h ≠ 0 →
        ∃ c, Training.get_spent_calories (.sportsWalking a d w h) = .ok c) ∧
      (∃ c, Training.get_spent_calories (.swimming a d w lp cp) = .ok c)) :=
  ⟨rfl, fun hd =>
    ⟨⟨_, running_calories_eq a d w (ne_of_gt hd)⟩,
     fun hh => ⟨_, walking_calories_eq a d w h (ne_of_gt hd) hh⟩,
     ⟨_, swimming_calories_eq a d w lp cp (ne_of_gt hd)⟩⟩⟩

/-- Witness for claim C9 at reference sample values. -/
theorem base_calories_unimplemented_witness :
    Training.get_spent_calories (.base 720 1 80)
      = .error (.notImplementedError "Метод будет переопределен далее") ∧
    (∃ c, Training.get_spent_calories (.sportsWalking 9000 1 75 (9 / 5))
      = .ok c) :=
  ⟨(base_calories_unimplemented 720 1 80 1 1 1).1,
   ((base_calories_unimplemented 9000 1 75 (9 / 5) 25 40).2
      (by norm_num)).2.1 (by norm_num)⟩

/-- Claim C10: `Swimming.get_distance` uses the overridden step length
`1.38`; for Running and SportsWalking with positive duration the report's
distance equals mean speed times duration, but a concrete Swimming workout
(the reference sample) violates that equality, because its speed comes
from pool geometry while its distance still comes from the stroke
count. -/
theorem swimming_distance_speed_decoupled :
    (∀ a d w lp cp : ℚ,
      Training.get_distance (.swimming a d w lp cp) = a * (1.38 : ℚ) / 1000) ∧
    (∀ a d w : ℚ, 0 < d → ∀ s,
      Training.get_mean_speed (.running a d w) = .ok s →
      Training.get_distance (.running a d w) = s * d) ∧
    (∀ a d w h : ℚ, 0 < d → ∀ s,
      Training.get_mean_speed (.sportsWalking a d w h) = .ok s →
      Training.get_distance (.sportsWalking a d w h) = s * d) ∧
    (∃ a d w lp cp : ℚ, ∃ s : ℚ, 0 < d ∧
      Training.get_mean_speed (.swimming a d w lp cp) = .ok s ∧
      Training.get_distance (.swimming a d w lp cp) ≠ s * d) := by
  refine ⟨fun a d w lp cp => rfl, fun a d w hd s hs => ?_,
    fun a d w h hd s hs => ?_,
    ⟨720, 1, 80, 25, 40, 1, by norm_num,
      by norm_num [Training.get_mean_speed, pyDiv, Training.M_IN_KM],
      by norm_num [Training.get_distance, Training.action, Training.LEN_STEP,
        Training.M_IN_KM]⟩⟩
  · simp [Training.get_mean_speed, Training.action, Training.duration,
      Training.LEN_STEP, Training.M_IN_KM, pyDiv, ne_of_gt hd] at hs
    subst hs
    simp [Training.get_distance, Training.action, Training.LEN_STEP,
      Training.M_IN_KM]
    rw [div_mul_cancel₀]
    exact ne_of_gt hd
  · simp [Training.get_mean_speed, Training.action, Training.duration,
      Training.LEN_STEP, Training.M_IN_KM, pyDiv, ne_of_gt hd] at hs
    subst hs
    simp [Training.get_distance, Training.action, Training.LEN_STEP,
      Training.M_IN_KM]
    rw [div_mul_cancel₀]
    exact ne_of_gt hd

/-- Witness for claim C10: the distance-speed relation instantiated at the
reference Running sample. -/
theorem swimming_distance_speed_decoupled_witness :
    Training.get_distance (.running 15000 1 75) = (39 / 4 : ℚ) * 1 :=
  swimming_distance_speed_decoupled.2.1 15000 1 75 (by norm_num) (39 / 4)
    (by norm_num [Training.get_mean_speed, Training.action, Training.duration,
      Training.LEN_STEP, Training.M_IN_KM, pyDiv])

end homework
